import Mathlib

/-!
Verification of the greenroom media-tool server: a shallow embedding of the
genre fetching/merging pipeline, the mood categorization engine, the media
discovery validator, and the dual-agent comparator, together with proofs of
the specified properties.
-/

namespace Greenroom

/-- A validated TMDB genre record (pydantic model `TMDBGenre`: `id : int`,
`name : str`, both mandatory). -/
structure TMDBGenre where
  id : Int
  name : String
deriving DecidableEq, Repr

/-- The per-genre properties stored in the merged genre map: the TMDB id and
the two availability flags (keys `id`, `has_movies`, `has_tv_shows`). -/
structure GenreProps where
  id : Int
  has_movies : Bool
  has_tv_shows : Bool
deriving DecidableEq, Repr

/-- Insertion-ordered string-keyed dictionary, modelling a Python `dict`. -/
abbrev PyDict (α : Type) := List (String × α)

/-- Membership test on a Python dict (`k in d`). -/
def dictContains (m : PyDict α) (k : String) : Bool :=
  m.any (fun p => p.1 == k)

/-- Lookup on a Python dict (`d[k]`, as an `Option`). -/
def dictGet? (m : PyDict α) (k : String) : Option α :=
  (m.find? (fun p => p.1 == k)).map (·.2)

/-- Assignment `d[k] = v` on a Python dict: overwrite in place when the key
exists (keeping its position), otherwise append at the end. -/
def dictSet (m : PyDict α) (k : String) (v : α) : PyDict α :=
  if dictContains m k then
    m.map (fun p => if p.1 == k then (k, v) else p)
  else
    m ++ [(k, v)]

/-- In-place update of the value at an existing key (`d[k][field] = v`). -/
def dictUpdate (m : PyDict α) (k : String) (f : α → α) : PyDict α :=
  m.map (fun p => if p.1 == k then (p.1, f p.2) else p)

/-- Embedding of `_combine_genre_lists` (fetching_tools.py / server.py):
build the map from the movie list with `has_movies := true`,
`has_tv_shows := false`; then for each TV genre either flip
`has_tv_shows` on an existing entry or insert a fresh TV-only entry. -/
def _combine_genre_lists (movie_genres tv_genres : List TMDBGenre) :
    PyDict GenreProps :=
  let genres_map : PyDict GenreProps :=
    movie_genres.foldl
      (fun m g => dictSet m g.name ⟨g.id, true, false⟩) []
  tv_genres.foldl
    (fun m g =>
      if dictContains m g.name then
        dictUpdate m g.name (fun p => { p with has_tv_shows := true })
      else
        m ++ [(g.name, ⟨g.id, false, true⟩)])
    genres_map

theorem dictGet?_nil (k : String) : dictGet? ([] : PyDict α) k = none := rfl

theorem dictGet?_cons (p : String × α) (m : PyDict α) (k : String) :
    dictGet? (p :: m) k = if p.1 == k then some p.2 else dictGet? m k := by
  simp only [dictGet?, List.find?_cons]
  by_cases h : p.1 == k
  · simp [h]
  · simp [h]

theorem dictContains_cons (p : String × α) (m : PyDict α) (k : String) :
    dictContains (p :: m) k = (p.1 == k || dictContains m k) := by
  simp [dictContains]

theorem dictContains_eq_isSome (m : PyDict α) (k : String) :
    dictContains m k = (dictGet? m k).isSome := by
  induction m with
  | nil => rfl
  | cons p m ih =>
    rw [dictContains_cons, dictGet?_cons]
    by_cases h : p.1 == k
    · simp [h]
    · simp [h, ih]

theorem dictGet?_overwrite_self (m : PyDict α) (k : String) (v : α)
    (hc : dictContains m k = true) :
    dictGet? (m.map (fun p => if p.1 == k then (k, v) else p)) k = some v := by
  induction m with
  | nil => simp [dictContains] at hc
  | cons p m ih =>
    rw [dictContains_cons] at hc
    rw [List.map_cons, dictGet?_cons]
    by_cases h : (p.1 == k) = true
    · rw [if_pos h]
      simp
    · rw [if_neg h, if_neg h]
      rw [Bool.not_eq_true] at h
      rw [h, Bool.false_or] at hc
      exact ih hc

theorem dictGet?_overwrite_ne (m : PyDict α) (k k' : String) (v : α)
    (hne : k' ≠ k) :
    dictGet? (m.map (fun p => if p.1 == k then (k, v) else p)) k' =
      dictGet? m k' := by
  induction m with
  | nil => rfl
  | cons p m ih =>
    rw [List.map_cons, dictGet?_cons, dictGet?_cons]
    by_cases h : (p.1 == k) = true
    · rw [if_pos h]
      have hpk : p.1 = k := by simpa using h
      have hkk : ¬(((k, v).1 == k') = true) := by simp [Ne.symm hne]
      have hpk' : ¬((p.1 == k') = true) := by simp [hpk, Ne.symm hne]
      rw [if_neg hkk, if_neg hpk']
      exact ih
    · rw [if_neg h, ih]

theorem dictGet?_append_single_ne (m : PyDict α) (k k' : String) (v : α)
    (hne : k' ≠ k) : dictGet? (m ++ [(k, v)]) k' = dictGet? m k' := by
  induction m with
  | nil =>
    have hb : (k == k') = false := by simp [Ne.symm hne]
    simp [dictGet?_cons, hb, dictGet?_nil]
  | cons p m ih => simp [List.cons_append, dictGet?_cons, ih]

theorem dictGet?_append_single_self (m : PyDict α) (k : String) (v : α)
    (hnone : dictGet? m k = none) : dictGet? (m ++ [(k, v)]) k = some v := by
  induction m with
  | nil => simp [dictGet?_cons]
  | cons p m ih =>
    rw [dictGet?_cons] at hnone
    by_cases h : p.1 = k
    · have hb : (p.1 == k) = true := by simp [h]
      simp [hb] at hnone
    · have hb : (p.1 == k) = false := by simp [h]
      rw [hb] at hnone
      simp only [Bool.false_eq_true, if_false] at hnone
      simp [List.cons_append, dictGet?_cons, hb, ih hnone]

theorem dictGet?_dictSet_self (m : PyDict α) (k : String) (v : α) :
    dictGet? (dictSet m k v) k = some v := by
  unfold dictSet
  by_cases hc : dictContains m k = true
  · simp only [hc, if_true]
    exact dictGet?_overwrite_self m k v hc
  · rw [Bool.not_eq_true] at hc
    simp only [hc, Bool.false_eq_true, if_false]
    apply dictGet?_append_single_self
    have := dictContains_eq_isSome m k
    rw [hc] at this
    exact Option.not_isSome_iff_eq_none.mp (by simp [this.symm])

theorem dictGet?_dictSet_ne (m : PyDict α) (k k' : String) (v : α)
    (hne : k' ≠ k) : dictGet? (dictSet m k v) k' = dictGet? m k' := by
  unfold dictSet
  by_cases hc : dictContains m k = true
  · simp only [hc, if_true]
    exact dictGet?_overwrite_ne m k k' v hne
  · rw [Bool.not_eq_true] at hc
    simp only [hc, Bool.false_eq_true, if_false]
    exact dictGet?_append_single_ne m k k' v hne

theorem dictGet?_dictUpdate_self (m : PyDict α) (k : String) (f : α → α) :
    dictGet? (dictUpdate m k f) k = (dictGet? m k).map f := by
  induction m with
  | nil => rfl
  | cons p m ih =>
    unfold dictUpdate at *
    rw [List.map_cons, dictGet?_cons, dictGet?_cons]
    by_cases h : (p.1 == k) = true
    · rw [if_pos h]
      have h2 : (((p.1, f p.2)).1 == k) = true := h
      rw [if_pos h2, if_pos h]
      rfl
    · rw [if_neg h, if_neg h, if_neg h]
      exact ih

theorem dictGet?_dictUpdate_ne (m : PyDict α) (k k' : String) (f : α → α)
    (hne : k' ≠ k) : dictGet? (dictUpdate m k f) k' = dictGet? m k' := by
  induction m with
  | nil => rfl
  | cons p m ih =>
    unfold dictUpdate at *
    rw [List.map_cons, dictGet?_cons, dictGet?_cons]
    by_cases h : (p.1 == k) = true
    · rw [if_pos h]
      have hpk : p.1 = k := by simpa using h
      have hpk' : ¬((((p.1, f p.2)).1 == k') = true) := by
        simp [hpk, Ne.symm hne]
      have hpk'' : ¬((p.1 == k') = true) := by simp [hpk, Ne.symm hne]
      rw [if_neg hpk', if_neg hpk'']
      exact ih
    · rw [if_neg h, ih]

theorem any_eq_isSome_find? (l : List α) (p : α → Bool) :
    l.any p = (l.find? p).isSome := by
  induction l with
  | nil => rfl
  | cons a l ih =>
    by_cases h : p a = true
    · rw [List.any_cons, h, List.find?_cons_of_pos _ h]
      rfl
    · rw [List.any_cons, List.find?_cons_of_neg _ h, ← ih,
        Bool.not_eq_true] at *
      rw [h, Bool.false_or]

theorem movie_fold_not_mem (l : List TMDBGenre) (acc : PyDict GenreProps)
    (k : String) (h : ∀ g ∈ l, g.name ≠ k) :
    dictGet? (l.foldl
      (fun m g => dictSet m g.name ⟨g.id, true, false⟩) acc) k =
      dictGet? acc k := by
  induction l generalizing acc with
  | nil => rfl
  | cons g l ih =>
    rw [List.foldl_cons,
      ih _ (fun g' hg' => h g' (List.mem_cons_of_mem _ hg'))]
    exact dictGet?_dictSet_ne acc g.name k _
      (fun e => (h g (List.mem_cons_self _ _)) e.symm)

theorem movie_fold_find (l : List TMDBGenre) (acc : PyDict GenreProps)
    (k : String) (g : TMDBGenre)
    (hfind : l.find? (fun g => g.name == k) = some g)
    (hnd : (l.map (fun g => g.name)).Nodup) :
    dictGet? (l.foldl
      (fun m g => dictSet m g.name ⟨g.id, true, false⟩) acc) k =
      some ⟨g.id, true, false⟩ := by
  induction l generalizing acc with
  | nil => simp at hfind
  | cons a l ih =>
    rw [List.map_cons, List.nodup_cons] at hnd
    rw [List.foldl_cons]
    by_cases h : (a.name == k) = true
    · rw [List.find?_cons_of_pos (p := fun (g : TMDBGenre) => g.name == k) _ h] at hfind
      obtain rfl : a = g := by injection hfind
      have hak : a.name = k := by simpa using h
      have hnotin : ∀ g' ∈ l, g'.name ≠ k := by
        intro g' hg' e
        exact hnd.1 (by rw [hak, ← e]; exact List.mem_map_of_mem _ hg')
      rw [movie_fold_not_mem l _ k hnotin, ← hak]
      exact dictGet?_dictSet_self acc a.name _
    · rw [List.find?_cons_of_neg (p := fun (g : TMDBGenre) => g.name == k) _ h] at hfind
      exact ih _ hfind hnd.2

theorem tvStep_get_ne (acc : PyDict GenreProps) (a : TMDBGenre) (k : String)
    (hne : a.name ≠ k) :
    dictGet? (if dictContains acc a.name then
        dictUpdate acc a.name (fun p => { p with has_tv_shows := true })
      else acc ++ [(a.name, ⟨a.id, false, true⟩)]) k = dictGet? acc k := by
  by_cases hc : dictContains acc a.name = true
  · rw [if_pos hc]
    exact dictGet?_dictUpdate_ne acc a.name k _ (Ne.symm hne)
  · rw [if_neg hc]
    exact dictGet?_append_single_ne acc a.name k _ (Ne.symm hne)

theorem tv_fold_not_mem (l : List TMDBGenre) (acc : PyDict GenreProps)
    (k : String) (h : ∀ g ∈ l, g.name ≠ k) :
    dictGet? (l.foldl
      (fun m g =>
        if dictContains m g.name then
          dictUpdate m g.name (fun p => { p with has_tv_shows := true })
        else m ++ [(g.name, ⟨g.id, false, true⟩)]) acc) k =
      dictGet? acc k := by
  induction l generalizing acc with
  | nil => rfl
  | cons g l ih =>
    rw [List.foldl_cons,
      ih _ (fun g' hg' => h g' (List.mem_cons_of_mem _ hg'))]
    exact tvStep_get_ne acc g k (h g (List.mem_cons_self _ _))

theorem tv_fold_find (l : List TMDBGenre) (acc : PyDict GenreProps)
    (k : String) (g : TMDBGenre)
    (hfind : l.find? (fun g => g.name == k) = some g)
    (hnd : (l.map (fun g => g.name)).Nodup) :
    dictGet? (l.foldl
      (fun m g =>
        if dictContains m g.name then
          dictUpdate m g.name (fun p => { p with has_tv_shows := true })
        else m ++ [(g.name, ⟨g.id, false, true⟩)]) acc) k =
      (match dictGet? acc k with
        | some p => some { p with has_tv_shows := true }
        | none => some ⟨g.id, false, true⟩) := by
  induction l generalizing acc with
  | nil => simp at hfind
  | cons a l ih =>
    rw [List.map_cons, List.nodup_cons] at hnd
    rw [List.foldl_cons]
    by_cases h : (a.name == k) = true
    · rw [List.find?_cons_of_pos (p := fun (g : TMDBGenre) => g.name == k) _ h] at hfind
      obtain rfl : a = g := by injection hfind
      have hak : a.name = k := by simpa using h
      have hnotin : ∀ g' ∈ l, g'.name ≠ k := by
        intro g' hg' e
        exact hnd.1 (by rw [hak, ← e]; exact List.mem_map_of_mem _ hg')
      rw [tv_fold_not_mem l _ k hnotin]
      by_cases hc : dictContains acc a.name = true
      · rw [if_pos hc, ← hak, dictGet?_dictUpdate_self]
        have hsome := dictContains_eq_isSome acc a.name
        rw [hc] at hsome
        obtain ⟨p, hp⟩ := Option.isSome_iff_exists.mp hsome.symm
        rw [hp]
        rfl
      · rw [if_neg hc, ← hak]
        have hsome := dictContains_eq_isSome acc a.name
        rw [Bool.not_eq_true] at hc
        rw [hc] at hsome
        have hnone : dictGet? acc a.name = none :=
          Option.not_isSome_iff_eq_none.mp (by simp [hsome.symm])
        rw [dictGet?_append_single_self acc a.name _ hnone, hnone]
    · rw [List.find?_cons_of_neg (p := fun (g : TMDBGenre) => g.name == k) _ h] at hfind
      have hank : a.name ≠ k := fun e => h (by simp [e])
      rw [ih _ hfind hnd.2, tvStep_get_ne acc a k hank]

theorem combine_genre_lookup (movie_genres tv_genres : List TMDBGenre)
    (hm : (movie_genres.map (fun g => g.name)).Nodup)
    (ht : (tv_genres.map (fun g => g.name)).Nodup) (k : String) :
    dictGet? (_combine_genre_lists movie_genres tv_genres) k =
      (match movie_genres.find? (fun g => g.name == k),
          tv_genres.find? (fun g => g.name == k) with
        | some gm, some _ => some ⟨gm.id, true, true⟩
        | some gm, none => some ⟨gm.id, true, false⟩
        | none, some gt => some ⟨gt.id, false, true⟩
        | none, none => none) := by
  unfold _combine_genre_lists
  cases hmf : movie_genres.find? (fun g => g.name == k) with
  | some gm =>
    cases htf : tv_genres.find? (fun g => g.name == k) with
    | some gt =>
      rw [tv_fold_find tv_genres _ k gt htf ht,
        movie_fold_find movie_genres [] k gm hmf hm]
    | none =>
      have hnot : ∀ g ∈ tv_genres, g.name ≠ k := by
        intro g hg e
        exact absurd (by simp [e]) (List.find?_eq_none.mp htf g hg)
      rw [tv_fold_not_mem tv_genres _ k hnot,
        movie_fold_find movie_genres [] k gm hmf hm]
  | none =>
    have hmnot : ∀ g ∈ movie_genres, g.name ≠ k := by
      intro g hg e
      exact absurd (by simp [e]) (List.find?_eq_none.mp hmf g hg)
    cases htf : tv_genres.find? (fun g => g.name == k) with
    | some gt =>
      rw [tv_fold_find tv_genres _ k gt htf ht,
        movie_fold_not_mem movie_genres [] k hmnot]
      rfl
    | none =>
      have hnot : ∀ g ∈ tv_genres, g.name ≠ k := by
        intro g hg e
        exact absurd (by simp [e]) (List.find?_eq_none.mp htf g hg)
      rw [tv_fold_not_mem tv_genres _ k hnot,
        movie_fold_not_mem movie_genres [] k hmnot]
      rfl

theorem mem_dictSet (m : PyDict α) (k : String) (v : α) (q : String × α)
    (hq : q ∈ dictSet m k v) : q = (k, v) ∨ q ∈ m := by
  unfold dictSet at hq
  by_cases hc : dictContains m k = true
  · rw [if_pos hc] at hq
    rcases List.mem_map.mp hq with ⟨p, hp, hpq⟩
    by_cases h : (p.1 == k) = true
    · rw [if_pos h] at hpq
      exact Or.inl hpq.symm
    · rw [if_neg h] at hpq
      exact Or.inr (hpq ▸ hp)
  · rw [if_neg hc] at hq
    rcases List.mem_append.mp hq with h1 | h2
    · exact Or.inr h1
    · exact Or.inl (by simpa using h2)

theorem mem_dictUpdate (m : PyDict α) (k : String) (f : α → α)
    (q : String × α) (hq : q ∈ dictUpdate m k f) :
    ∃ p ∈ m, q = (p.1, f p.2) ∨ q = p := by
  unfold dictUpdate at hq
  rcases List.mem_map.mp hq with ⟨p, hp, hpq⟩
  by_cases h : (p.1 == k) = true
  · rw [if_pos h] at hpq
    exact ⟨p, hp, Or.inl hpq.symm⟩
  · rw [if_neg h] at hpq
    exact ⟨p, hp, Or.inr hpq.symm⟩

theorem movie_fold_has_movies (l : List TMDBGenre) (acc : PyDict GenreProps)
    (hacc : ∀ q ∈ acc, q.2.has_movies = true) :
    ∀ q ∈ l.foldl (fun m g => dictSet m g.name ⟨g.id, true, false⟩) acc,
      q.2.has_movies = true := by
  induction l generalizing acc with
  | nil => exact hacc
  | cons g l ih =>
    rw [List.foldl_cons]
    apply ih
    intro q hq
    rcases mem_dictSet _ _ _ q hq with h | h
    · rw [h]
    · exact hacc q h

theorem tv_fold_flag (l : List TMDBGenre) (acc : PyDict GenreProps)
    (hacc : ∀ q ∈ acc, q.2.has_movies = true ∨ q.2.has_tv_shows = true) :
    ∀ q ∈ l.foldl
      (fun m g =>
        if dictContains m g.name then
          dictUpdate m g.name (fun p => { p with has_tv_shows := true })
        else m ++ [(g.name, ⟨g.id, false, true⟩)]) acc,
      q.2.has_movies = true ∨ q.2.has_tv_shows = true := by
  induction l generalizing acc with
  | nil => exact hacc
  | cons g l ih =>
    rw [List.foldl_cons]
    apply ih
    intro q hq
    by_cases hc : dictContains acc g.name = true
    · rw [if_pos hc] at hq
      rcases mem_dictUpdate _ _ _ q hq with ⟨p, hp, h | h⟩
      · rw [h]
        exact Or.inr rfl
      · rw [h]
        exact hacc p hp
    · rw [if_neg hc] at hq
      rcases List.mem_append.mp hq with h1 | h2
      · exact hacc q h1
      · have hq2 : q = (g.name, ⟨g.id, false, true⟩) := by simpa using h2
        rw [hq2]
        exact Or.inr rfl

/-- C1: for validated film and TV genre lists (names unique within each
list), the merged map contains exactly the names appearing in either list; a
name only in the film list maps to its film id with `has_movies = true`,
`has_tv_shows = false`; a name only in the TV list maps to its TV id with
`has_movies = false`, `has_tv_shows = true`; a name in both lists maps to
the film-side id with both flags true (with no condition relating the two
ids, so this holds even when the lists assign different ids). -/
theorem genre_merge_by_name (movie_genres tv_genres : List TMDBGenre)
    (hm : (movie_genres.map (fun g => g.name)).Nodup)
    (ht : (tv_genres.map (fun g => g.name)).Nodup) (k : String) :
    (dictContains (_combine_genre_lists movie_genres tv_genres) k =
      (movie_genres.any (fun g => g.name == k) ||
        tv_genres.any (fun g => g.name == k)))
    ∧ (∀ gm, movie_genres.find? (fun g => g.name == k) = some gm →
        tv_genres.find? (fun g => g.name == k) = none →
        dictGet? (_combine_genre_lists movie_genres tv_genres) k =
          some ⟨gm.id, true, false⟩)
    ∧ (∀ gt, movie_genres.find? (fun g => g.name == k) = none →
        tv_genres.find? (fun g => g.name == k) = some gt →
        dictGet? (_combine_genre_lists movie_genres tv_genres) k =
          some ⟨gt.id, false, true⟩)
    ∧ (∀ gm gt, movie_genres.find? (fun g => g.name == k) = some gm →
        tv_genres.find? (fun g => g.name == k) = some gt →
        dictGet? (_combine_genre_lists movie_genres tv_genres) k =
          some ⟨gm.id, true, true⟩) := by
  refine ⟨?_, ?_, ?_, ?_⟩
  · rw [dictContains_eq_isSome, combine_genre_lookup _ _ hm ht k,
      any_eq_isSome_find?, any_eq_isSome_find?]
    cases movie_genres.find? (fun g => g.name == k) <;>
      cases tv_genres.find? (fun g => g.name == k) <;> rfl
  · intro gm h1 h2
    rw [combine_genre_lookup _ _ hm ht k, h1, h2]
  · intro gt h1 h2
    rw [combine_genre_lookup _ _ hm ht k, h1, h2]
  · intro gm gt h1 h2
    rw [combine_genre_lookup _ _ hm ht k, h1, h2]

/-- Witness for C1: with film list `[(28, Action), (1, Drama)]` and TV list
`[(2, Drama)]`, the name in both lists keeps the film-side id 1 even though
the TV list assigns id 2. -/
theorem genre_merge_by_name_witness :
    dictGet? (_combine_genre_lists [⟨28, "Action"⟩, ⟨1, "Drama"⟩]
      [⟨2, "Drama"⟩]) "Drama" = some ⟨1, true, true⟩ :=
  (genre_merge_by_name [⟨28, "Action"⟩, ⟨1, "Drama"⟩] [⟨2, "Drama"⟩]
    (by decide) (by decide) "Drama").2.2.2 ⟨1, "Drama"⟩ ⟨2, "Drama"⟩
    (by decide) (by decide)

/-- C9: every entry of the merged genre map has at least one of its two
availability flags set — no reachable output of `_combine_genre_lists`
contains an entry with both `has_movies` and `has_tv_shows` false. -/
theorem genre_merge_availability_invariant
    (movie_genres tv_genres : List TMDBGenre) :
    ∀ q ∈ _combine_genre_lists movie_genres tv_genres,
      q.2.has_movies = true ∨ q.2.has_tv_shows = true := by
  intro q hq
  unfold _combine_genre_lists at hq
  exact tv_fold_flag tv_genres _
    (fun q hq => Or.inl (movie_fold_has_movies movie_genres []
      (fun q h => absurd h (List.not_mem_nil q)) q hq)) q hq

/-- Witness for C9: the TV-only entry produced from a concrete merge has its
TV availability flag set. -/
theorem genre_merge_availability_invariant_witness :
    (("Mystery", (⟨9648, false, true⟩ : GenreProps)) ∈
      _combine_genre_lists [⟨28, "Action"⟩] [⟨9648, "Mystery"⟩])
    ∧ ((⟨9648, false, true⟩ : GenreProps).has_movies = true ∨
        (⟨9648, false, true⟩ : GenreProps).has_tv_shows = true) :=
  ⟨by decide,
    genre_merge_availability_invariant [⟨28, "Action"⟩] [⟨9648, "Mystery"⟩]
      ("Mystery", ⟨9648, false, true⟩) (by decide)⟩

/-- The `Mood` enum of config.py: the five mood buckets, in declaration
order Dark, Light, Serious, Fun, Other. -/
inductive Mood where
  | DARK
  | LIGHT
  | SERIOUS
  | FUN
  | OTHER
deriving DecidableEq, Repr

/-- The string value of each `Mood` member. -/
def Mood.value : Mood → String
  | .DARK => "Dark"
  | .LIGHT => "Light"
  | .SERIOUS => "Serious"
  | .FUN => "Fun"
  | .OTHER => "Other"

/-- The list `[m.value for m in Mood]`, in enum declaration order. -/
def Mood.values : List String :=
  [Mood.DARK.value, Mood.LIGHT.value, Mood.SERIOUS.value, Mood.FUN.value,
    Mood.OTHER.value]

/-- The hardcoded `GENRE_MOOD_MAP` of config.py, in source order. -/
def GENRE_MOOD_MAP : PyDict Mood :=
  [("Horror", .DARK), ("Thriller", .DARK), ("Crime", .DARK),
    ("Mystery", .DARK),
    ("Comedy", .LIGHT), ("Family", .LIGHT), ("Kids", .LIGHT),
    ("Animation", .LIGHT), ("Romance", .LIGHT),
    ("Documentary", .SERIOUS), ("History", .SERIOUS), ("War", .SERIOUS),
    ("Drama", .SERIOUS), ("News", .SERIOUS), ("War & Politics", .SERIOUS),
    ("Action", .FUN), ("Adventure", .FUN), ("Action & Adventure", .FUN),
    ("Fantasy", .FUN), ("Science Fiction", .FUN),
    ("Sci-Fi & Fantasy", .FUN), ("Music", .FUN)]

/-- Outcome of one `ctx.sample` call: the response text, or a raised
exception (any kind, carried as its message). -/
inductive SampleResult where
  | success (text : String)
  | failure (msg : String)

/-- Model of Python `str.strip()`: drop whitespace from both ends. -/
def pyStrip (s : String) : String :=
  String.mk
    (((s.data.dropWhile Char.isWhitespace).reverse.dropWhile
      Char.isWhitespace).reverse)

/-- The acceptance check inside `_categorize_single_genre`
(operations_tools.py line 128-130): strip the response text and accept it
iff it is one of the five `Mood` values. -/
def accepted_classification (text : String) : Option String :=
  let mood := pyStrip text
  if Mood.values.contains mood then some mood else none

/-- Embedding of `_categorize_single_genre` (operations_tools.py): static
table first; otherwise one sampling call whose accepted response is returned
directly, every other outcome (exception or non-matching text) falling back
to `Other`. The boolean records whether the sampling call was made. -/
def _categorize_single_genre (genre_name : String)
    (oracle : String → SampleResult) : String × Bool :=
  match dictGet? GENRE_MOOD_MAP genre_name with
  | some mood => (mood.value, false)
  | none =>
    match oracle genre_name with
    | .success text =>
      match accepted_classification text with
      | some mood => (mood, true)
      | none => (Mood.OTHER.value, true)
    | .failure _ => (Mood.OTHER.value, true)

/-- Modelled from the spec: `create_empty_categorized_dict` is imported from
`greenroom.utils`, a module absent from the sources; per the spec the
categorization result maps each of the five bucket names to a list of genre
names, buckets with no members being present as empty lists, never
omitted. -/
def create_empty_categorized_dict : PyDict (List String) :=
  [(Mood.DARK.value, []), (Mood.LIGHT.value, []), (Mood.SERIOUS.value, []),
    (Mood.FUN.value, []), (Mood.OTHER.value, [])]

/-- Code-point lexicographic comparison of character lists. -/
def charListLe : List Char → List Char → Bool
  | [], _ => true
  | _ :: _, [] => false
  | a :: as, b :: bs =>
    if a.val < b.val then true
    else if b.val < a.val then false
    else charListLe as bs

/-- Model of Python string `<=`: code-point lexicographic order. -/
def pyStrLe (a b : String) : Bool :=
  charListLe a.data b.data

/-- Insert a string into a sorted list, keeping earlier elements first on
ties (stable insertion). -/
def insertSortedStr (x : String) : List String → List String
  | [] => [x]
  | y :: ys => if pyStrLe x y then x :: y :: ys else y :: insertSortedStr x ys

/-- Model of Python `sorted` on a list of strings: stable insertion sort by
code-point lexicographic order. -/
def pySorted : List String → List String
  | [] => []
  | x :: xs => insertSortedStr x (pySorted xs)

/-- Embedding of `categorize_all_genres` (operations_tools.py): iterate the
genre names in sorted order, classify each sequentially, and append it to
its bucket when the bucket exists. The second component counts the sampling
calls that were made. -/
def categorize_all_genres (genres : PyDict GenreProps)
    (oracle : String → SampleResult) : PyDict (List String) × Nat :=
  let names := pySorted (genres.map (fun p => p.1))
  names.foldl
    (fun st genre_name =>
      let r := _categorize_single_genre genre_name oracle
      (if dictContains st.1 r.1 then
          dictUpdate st.1 r.1 (fun l => l ++ [genre_name])
        else st.1,
       st.2 + (if r.2 then 1 else 0)))
    (create_empty_categorized_dict, 0)

/-- The genre map used by the C5 end-to-end example: the four static-table
genres Horror, Comedy, Documentary, Action. -/
def exampleFourGenres : PyDict GenreProps :=
  [("Horror", ⟨27, true, false⟩), ("Comedy", ⟨35, true, true⟩),
    ("Documentary", ⟨99, true, true⟩), ("Action", ⟨28, true, false⟩)]

/-- C5: a genre name that is a key of the static mood table is categorized
to that table's bucket with no sampling call, whatever the sampling oracle
would answer; and categorizing the four static-table genres Horror, Comedy,
Documentary, Action yields Dark=[Horror], Light=[Comedy],
Serious=[Documentary], Fun=[Action], Other=[] — all five buckets present,
with zero sampling calls in total. -/
theorem static_table_categorization :
    (∀ (genre_name : String) (mood : Mood)
      (oracle : String → SampleResult),
      dictGet? GENRE_MOOD_MAP genre_name = some mood →
      _categorize_single_genre genre_name oracle = (mood.value, false))
    ∧ (∀ oracle : String → SampleResult,
      categorize_all_genres exampleFourGenres oracle =
        ([(Mood.DARK.value, ["Horror"]), (Mood.LIGHT.value, ["Comedy"]),
          (Mood.SERIOUS.value, ["Documentary"]),
          (Mood.FUN.value, ["Action"]), (Mood.OTHER.value, [])], 0)) := by
  constructor
  · intro genre_name mood oracle h
    unfold _categorize_single_genre
    rw [h]
  · intro oracle
    rfl

/-- Witness for C5: Horror is in the static table with bucket Dark, and is
categorized as Dark with no sampling call under an oracle that would
fail. -/
theorem static_table_categorization_witness :
    dictGet? GENRE_MOOD_MAP "Horror" = some Mood.DARK ∧
    _categorize_single_genre "Horror"
      (fun _ => SampleResult.failure "sampling unsupported") =
      (Mood.DARK.value, false) :=
  ⟨by decide,
    static_table_categorization.1 "Horror" Mood.DARK
      (fun _ => SampleResult.failure "sampling unsupported") (by decide)⟩

/-- C2 counterexample: the model response "Other" is accepted by the
validation check — the check admits all five bucket values, not only Dark,
Light, Serious, Fun — so an accepted model response can be Other, and Other
is not assigned only by the fallback. -/
theorem mood_fallback_counterexample :
    accepted_classification "Other" = some Mood.OTHER.value ∧
    (Mood.OTHER.value ∈ [Mood.DARK.value, Mood.LIGHT.value,
      Mood.SERIOUS.value, Mood.FUN.value] → False) ∧
    _categorize_single_genre "Western"
      (fun _ => SampleResult.success "Other") = (Mood.OTHER.value, true) := by
  decide

/-- C2 (amended): for a genre name absent from the static table, a failing
sampling call, or a response whose trimmed text matches none of the five
bucket values, is assigned the Other bucket; an accepted response is
returned directly and is one of the five bucket values — including "Other"
itself, which is accepted rather than handled by the fallback, though the
resulting bucket is the same. -/
theorem mood_fallback_amended (genre_name : String)
    (oracle : String → SampleResult)
    (habsent : dictGet? GENRE_MOOD_MAP genre_name = none) :
    (∀ msg, oracle genre_name = .failure msg →
      _categorize_single_genre genre_name oracle = (Mood.OTHER.value, true))
    ∧ (∀ text, oracle genre_name = .success text →
        accepted_classification text = none →
        _categorize_single_genre genre_name oracle = (Mood.OTHER.value, true))
    ∧ (∀ text mood, oracle genre_name = .success text →
        accepted_classification text = some mood →
        _categorize_single_genre genre_name oracle = (mood, true) ∧
          Mood.values.contains mood = true) := by
  refine ⟨?_, ?_, ?_⟩
  · intro msg ho
    unfold _categorize_single_genre
    rw [habsent, ho]
  · intro text ho ha
    unfold _categorize_single_genre
    rw [habsent, ho]
    show (match accepted_classification text with
      | some mood => (mood, true)
      | none => (Mood.OTHER.value, true)) = (Mood.OTHER.value, true)
    rw [ha]
  · intro text mood ho ha
    unfold _categorize_single_genre
    rw [habsent, ho]
    show (match accepted_classification text with
      | some mood => (mood, true)
      | none => (Mood.OTHER.value, true)) = (mood, true) ∧
      Mood.values.contains mood = true
    rw [ha]
    refine ⟨rfl, ?_⟩
    unfold accepted_classification at ha
    by_cases hc : Mood.values.contains (pyStrip text) = true
    · rw [if_pos hc] at ha
      obtain rfl : pyStrip text = mood := by injection ha
      exact hc
    · rw [if_neg hc] at ha
      exact absurd ha (by simp)

/-- Witness for C2 (amended): the unknown genre Western with an out-of-set
response "Excited" lands in the Other bucket, with the sampling call
made. -/
theorem mood_fallback_amended_witness :
    dictGet? GENRE_MOOD_MAP "Western" = none ∧
    _categorize_single_genre "Western"
      (fun _ => SampleResult.success "Excited") = (Mood.OTHER.value, true) :=
  ⟨by decide,
    (mood_fallback_amended "Western" (fun _ => SampleResult.success "Excited")
      (by decide)).2.1 "Excited" rfl (by decide)⟩

/-- The six legal sort options of `_validate_discovery_params_internal`
(discovery_tools.py), in source order. -/
def valid_sort_options : List String :=
  ["popularity.desc", "popularity.asc",
    "vote_average.desc", "vote_average.asc",
    "date.desc", "date.asc"]

/-- The condition `year is not None and year < 1900` of the validator. -/
def year_given_below_1900 (year : Option Int) : Bool :=
  match year with
  | some y => decide (y < 1900)
  | none => false

/-- The condition `language is not None and not (len(language) == 2 and
language.isalpha())` of the validator. -/
def invalid_language (language : Option String) : Bool :=
  match language with
  | some l => !(l.length == 2 && l.data.all Char.isAlpha)
  | none => false

/-- Embedding of `_validate_discovery_params_internal` (discovery_tools.py):
the pre-flight validation of `discover_media`, checking media_type, year,
page, max_results, language and sort_by in source order, raising
`ValueError` (modelled as `Except.error` with the message) on the first
violation. -/
def _validate_discovery_params_internal (media_type : String)
    (year : Option Int) (page : Int) (max_results : Int)
    (language : Option String) (sort_by : String) : Except String Unit :=
  if !(["film", "tv"].contains media_type) then
    .error ("media_type must be \x27film\x27 or \x27tv\x27, got \x27" ++
      media_type ++ "\x27")
  else if year_given_below_1900 year then
    .error "year must be 1900 or later"
  else if page < 1 then
    .error "page must be 1 or greater"
  else if max_results < 1 ∨ max_results > 100 then
    .error "max_results must be between 1 and 100"
  else if invalid_language language then
    .error ("language must be a 2-character ISO 639-1 code " ++
      "(e.g., \x27en\x27, \x27es\x27, \x27fr\x27)")
  else if !(valid_sort_options.contains sort_by) then
    .error ("sort_by must be one of: " ++
      String.intercalate ", " valid_sort_options)
  else
    .ok ()

/-- Embedding of the `discover_media` tool (discovery_tools.py): validate,
then call the downstream service. The service call and its formatting are
abstracted as an `Except`-valued parameter; validation failures return
before it is consulted. -/
def discover_media {α : Type} (media_type : String) (genre_id : Option Int)
    (year : Option Int) (language : Option String) (sort_by : String)
    (page : Int) (max_results : Int) (service : Except String α) :
    Except String α :=
  match _validate_discovery_params_internal media_type year page max_results
      language sort_by with
  | .error e => .error e
  | .ok _ => service

/-- C3: discovery pre-flight validation. An invalid media_type fails first,
whatever the other parameters; with a valid media_type, a year below 1900,
a page below 1, a max_results outside [1,100], a language that is not
exactly 2 alphabetic characters, and a sort_by outside the six legal pairs
each fail with their message (the year message citing 1900, the sort
message enumerating the six legal values), checked in that order; in every
failing case the result is the same for every downstream service, i.e. no
network call is consulted; and when all constraints hold the service result
is returned unchanged. -/
theorem discovery_validation_preflight {α : Type} (media_type : String)
    (genre_id : Option Int) (year : Option Int) (language : Option String)
    (sort_by : String) (page max_results : Int) :
    (media_type ∉ ["film", "tv"] → ∀ service : Except String α,
      discover_media media_type genre_id year language sort_by page
        max_results service =
        .error ("media_type must be \x27film\x27 or \x27tv\x27, got \x27" ++
          media_type ++ "\x27"))
    ∧ (media_type ∈ ["film", "tv"] → ∀ y, year = some y → y < 1900 →
      ∀ service : Except String α,
      discover_media media_type genre_id year language sort_by page
        max_results service = .error "year must be 1900 or later")
    ∧ (media_type ∈ ["film", "tv"] → (∀ y ∈ year, 1900 ≤ y) → page < 1 →
      ∀ service : Except String α,
      discover_media media_type genre_id year language sort_by page
        max_results service = .error "page must be 1 or greater")
    ∧ (media_type ∈ ["film", "tv"] → (∀ y ∈ year, 1900 ≤ y) → 1 ≤ page →
      (max_results < 1 ∨ 100 < max_results) →
      ∀ service : Except String α,
      discover_media media_type genre_id year language sort_by page
        max_results service =
        .error "max_results must be between 1 and 100")
    ∧ (media_type ∈ ["film", "tv"] → (∀ y ∈ year, 1900 ≤ y) → 1 ≤ page →
      1 ≤ max_results → max_results ≤ 100 →
      ∀ l, language = some l →
      ¬(l.length = 2 ∧ l.data.all Char.isAlpha = true) →
      ∀ service : Except String α,
      discover_media media_type genre_id year language sort_by page
        max_results service =
        .error ("language must be a 2-character ISO 639-1 code " ++
          "(e.g., \x27en\x27, \x27es\x27, \x27fr\x27)"))
    ∧ (media_type ∈ ["film", "tv"] → (∀ y ∈ year, 1900 ≤ y) → 1 ≤ page →
      1 ≤ max_results → max_results ≤ 100 →
      (∀ l ∈ language, l.length = 2 ∧ l.data.all Char.isAlpha = true) →
      sort_by ∉ valid_sort_options →
      ∀ service : Except String α,
      discover_media media_type genre_id year language sort_by page
        max_results service =
        .error ("sort_by must be one of: popularity.desc, popularity.asc, " ++
          "vote_average.desc, vote_average.asc, date.desc, date.asc"))
    ∧ (media_type ∈ ["film", "tv"] → (∀ y ∈ year, 1900 ≤ y) → 1 ≤ page →
      1 ≤ max_results → max_results ≤ 100 →
      (∀ l ∈ language, l.length = 2 ∧ l.data.all Char.isAlpha = true) →
      sort_by ∈ valid_sort_options →
      ∀ service : Except String α,
      discover_media media_type genre_id year language sort_by page
        max_results service = service) := by
  refine ⟨?_, ?_, ?_, ?_, ?_, ?_, ?_⟩
  · intro h service
    have h1 : (!(["film", "tv"].contains media_type)) = true := by
      simpa using h
    unfold discover_media _validate_discovery_params_internal
    rw [if_pos h1]
  · intro hmem y hy hlt service
    have hc : (["film", "tv"].contains media_type) = true := by
      simpa using hmem
    have h1 : ¬((!(["film", "tv"].contains media_type)) = true) := by
      rw [hc]
      simp
    subst hy
    have h2 : year_given_below_1900 (some y) = true := decide_eq_true hlt
    unfold discover_media _validate_discovery_params_internal
    rw [if_neg h1, if_pos h2]
  · intro hmem hyear hpage service
    have hc : (["film", "tv"].contains media_type) = true := by
      simpa using hmem
    have h1 : ¬((!(["film", "tv"].contains media_type)) = true) := by
      rw [hc]
      simp
    have h2 : ¬(year_given_below_1900 year = true) := by
      cases year with
      | none => simp [year_given_below_1900]
      | some y => simp [year_given_below_1900, not_lt.mpr (hyear y rfl)]
    unfold discover_media _validate_discovery_params_internal
    rw [if_neg h1, if_neg h2, if_pos hpage]
  · intro hmem hyear hpage hmax service
    have hc : (["film", "tv"].contains media_type) = true := by
      simpa using hmem
    have h1 : ¬((!(["film", "tv"].contains media_type)) = true) := by
      rw [hc]
      simp
    have h2 : ¬(year_given_below_1900 year = true) := by
      cases year with
      | none => simp [year_given_below_1900]
      | some y => simp [year_given_below_1900, not_lt.mpr (hyear y rfl)]
    unfold discover_media _validate_discovery_params_internal
    rw [if_neg h1, if_neg h2, if_neg (not_lt.mpr hpage), if_pos hmax]
  · intro hmem hyear hpage hmr1 hmr2 l hlang hl service
    have hc : (["film", "tv"].contains media_type) = true := by
      simpa using hmem
    have h1 : ¬((!(["film", "tv"].contains media_type)) = true) := by
      rw [hc]
      simp
    have h2 : ¬(year_given_below_1900 year = true) := by
      cases year with
      | none => simp [year_given_below_1900]
      | some y => simp [year_given_below_1900, not_lt.mpr (hyear y rfl)]
    have h4 : ¬(max_results < 1 ∨ max_results > 100) := fun hh =>
      hh.elim (not_lt.mpr hmr1) (not_lt.mpr hmr2)
    subst hlang
    have h5 : invalid_language (some l) = true := by
      cases hb : (l.length == 2 && l.data.all Char.isAlpha) with
      | false => simp [invalid_language, hb]
      | true => exact absurd (by simpa using hb) hl
    unfold discover_media _validate_discovery_params_internal
    rw [if_neg h1, if_neg h2, if_neg (not_lt.mpr hpage), if_neg h4,
      if_pos h5]
  · intro hmem hyear hpage hmr1 hmr2 hlang hsort service
    have hc : (["film", "tv"].contains media_type) = true := by
      simpa using hmem
    have h1 : ¬((!(["film", "tv"].contains media_type)) = true) := by
      rw [hc]
      simp
    have h2 : ¬(year_given_below_1900 year = true) := by
      cases year with
      | none => simp [year_given_below_1900]
      | some y => simp [year_given_below_1900, not_lt.mpr (hyear y rfl)]
    have h4 : ¬(max_results < 1 ∨ max_results > 100) := fun hh =>
      hh.elim (not_lt.mpr hmr1) (not_lt.mpr hmr2)
    have h5 : ¬(invalid_language language = true) := by
      cases language with
      | none => simp [invalid_language]
      | some l => simp [invalid_language, (hlang l rfl).1, (hlang l rfl).2]
    have h6 : (!(valid_sort_options.contains sort_by)) = true := by
      simpa using hsort
    unfold discover_media _validate_discovery_params_internal
    rw [if_neg h1, if_neg h2, if_neg (not_lt.mpr hpage), if_neg h4,
      if_neg h5, if_pos h6]
    rfl
  · intro hmem hyear hpage hmr1 hmr2 hlang hsort service
    have hc : (["film", "tv"].contains media_type) = true := by
      simpa using hmem
    have h1 : ¬((!(["film", "tv"].contains media_type)) = true) := by
      rw [hc]
      simp
    have h2 : ¬(year_given_below_1900 year = true) := by
      cases year with
      | none => simp [year_given_below_1900]
      | some y => simp [year_given_below_1900, not_lt.mpr (hyear y rfl)]
    have h4 : ¬(max_results < 1 ∨ max_results > 100) := fun hh =>
      hh.elim (not_lt.mpr hmr1) (not_lt.mpr hmr2)
    have h5 : ¬(invalid_language language = true) := by
      cases language with
      | none => simp [invalid_language]
      | some l => simp [invalid_language, (hlang l rfl).1, (hlang l rfl).2]
    have h6 : ¬((!(valid_sort_options.contains sort_by)) = true) := by
      simpa using hsort
    unfold discover_media _validate_discovery_params_internal
    rw [if_neg h1, if_neg h2, if_neg (not_lt.mpr hpage), if_neg h4,
      if_neg h5, if_neg h6]

/-- Witness for C3: the spec's end-to-end example — discovery with
year = 1899 fails validation with the message citing 1900, for an arbitrary
service outcome. -/
theorem discovery_validation_preflight_witness :
    discover_media "film" none (some 1899) none "popularity.desc" 1 20
      (Except.ok ()) = Except.error "year must be 1900 or later" :=
  (discovery_validation_preflight "film" none (some 1899) none
    "popularity.desc" 1 20).2.1 (by decide) 1899 rfl (by decide)
    (Except.ok ())

/-- An LLM response record of agent_tools.py: `text`, `model`, `error`. -/
structure AgentResponse where
  text : Option String
  model : String
  error : Option String
deriving DecidableEq, Repr

/-- `OLLAMA_DEFAULT_MODEL` of config.py. -/
def OLLAMA_DEFAULT_MODEL : String := "llama3.2:latest"

/-- `OLLAMA_BASE_URL` of config.py. -/
def OLLAMA_BASE_URL : String := "http://localhost:11434"

/-- Embedding of `_format_response` (agent_tools.py): an exception becomes
`text = None` with its message as `error`; any other result is the response
text with `error = None`. -/
def _format_response (result : Except String String) (model : String) :
    AgentResponse :=
  match result with
  | .error e => { text := none, model := model, error := some e }
  | .ok t => { text := some t, model := model, error := none }

/-- Python `len(text) if text else 0`: 0 for a missing or empty text,
otherwise the character length. -/
def pyLenOrZero (text : Option String) : Nat :=
  match text with
  | some s => if s = "" then 0 else s.length
  | none => 0

/-- `alternative_model or OLLAMA_DEFAULT_MODEL`: Python `or` falls back on
`None` and on the empty string. -/
def pyModelName (alternative_model : Option String) : String :=
  match alternative_model with
  | none => OLLAMA_DEFAULT_MODEL
  | some s => if s = "" then OLLAMA_DEFAULT_MODEL else s

/-- The comparison payload returned by `compare_llms` (agent_tools.py). -/
structure ComparisonResult where
  prompt : String
  claude_response : AgentResponse
  alternative_response : AgentResponse
  claude_length : Nat
  alternative_length : Nat
  both_succeeded : Bool
deriving DecidableEq, Repr

/-- One response-generation dispatch issued by the comparator fork. -/
inductive Dispatch where
  | claude (prompt : String)
  | ollama (model prompt : String)
deriving DecidableEq, Repr

/-- Embedding of `compare_llms` (agent_tools.py): validate prompt,
temperature and max_tokens; then gather the two path outcomes (passed in as
`Except` values, an exception being the error message), format each, and
build the comparison. The dispatch list records the two calls issued by
`asyncio.gather`. -/
def compare_llms (prompt : String) (alternative_model : Option String)
    (temperature : Rat) (max_tokens : Int)
    (claude_result ollama_result : Except String String) :
    Except String (List Dispatch × ComparisonResult) :=
  if prompt = "" ∨ pyStrip prompt = "" then
    .error "Prompt cannot be empty"
  else if temperature < 0 ∨ temperature > 2 then
    .error "Temperature must be between 0 and 2"
  else if max_tokens < 1 ∨ max_tokens > 4000 then
    .error "Max tokens must be between 1 and 4000"
  else
    let model := pyModelName alternative_model
    let claude_response := _format_response claude_result "claude-sonnet-4-5"
    let alternative_response := _format_response ollama_result model
    let both_succeeded :=
      claude_response.error.isNone && alternative_response.error.isNone
    .ok ([Dispatch.claude prompt, Dispatch.ollama model prompt],
      { prompt := prompt,
        claude_response := claude_response,
        alternative_response := alternative_response,
        claude_length := pyLenOrZero claude_response.text,
        alternative_length := pyLenOrZero alternative_response.text,
        both_succeeded := both_succeeded })

/-- The parsed JSON body of an Ollama generate response: only the
`response` field matters to `_call_ollama`. -/
structure OllamaPayload where
  response : Option String
deriving DecidableEq, Repr

/-- Outcome of the HTTP POST to the Ollama endpoint: a transport failure
(`httpx.RequestError`), or a response with a status code, a body text, and
the body's JSON parse outcome. -/
inductive HttpOutcome where
  | transportError (msg : String)
  | response (status : Nat) (bodyText : String)
      (parsed : Except String OllamaPayload)

/-- A successful (2xx) HTTP status, as `raise_for_status` checks it. -/
def statusOk (status : Nat) : Bool :=
  200 ≤ status && status < 300

/-- Embedding of `_call_ollama` (agent_tools.py): transport failures become
a `ConnectionError` message, error statuses a provider-error message,
unparseable bodies the broad-except message, and a parsed body yields
`data.get("response", "")`. -/
def _call_ollama (base_url : String) (outcome : HttpOutcome) :
    Except String String :=
  match outcome with
  | .transportError msg =>
    .error ("Failed to connect to Ollama API at " ++ base_url ++
      ". Is the Ollama server running? Error: " ++ msg)
  | .response status bodyText parsed =>
    if !(statusOk status) then
      .error ("Ollama API error: " ++ toString status ++ " - " ++ bodyText)
    else
      match parsed with
      | .error e => .error ("Ollama error: " ++ e)
      | .ok data => .ok (data.response.getD "")

/-- C4: for validated inputs and every pair of path outcomes, `compare_llms`
returns a result (never an error): a failing path is recorded as that
response's error string with text null and does not constrain the sibling;
a succeeding path is recorded as its text with error null; each reported
length is the character length of that path's text, 0 when the text is
absent; and `both_succeeded` is true exactly when both error fields are
null. -/
theorem comparator_fork_join (prompt : String)
    (alternative_model : Option String) (temperature : Rat)
    (max_tokens : Int)
    (hp : ¬(prompt = "" ∨ pyStrip prompt = ""))
    (ht : ¬(temperature < 0 ∨ temperature > 2))
    (hm : ¬(max_tokens < 1 ∨ max_tokens > 4000))
    (claude_result ollama_result : Except String String) :
    ∃ ds r, compare_llms prompt alternative_model temperature max_tokens
        claude_result ollama_result = .ok (ds, r)
      ∧ (∀ e, claude_result = .error e →
          r.claude_response = ⟨none, "claude-sonnet-4-5", some e⟩)
      ∧ (∀ t, claude_result = .ok t →
          r.claude_response = ⟨some t, "claude-sonnet-4-5", none⟩)
      ∧ (∀ e, ollama_result = .error e →
          r.alternative_response =
            ⟨none, pyModelName alternative_model, some e⟩)
      ∧ (∀ t, ollama_result = .ok t →
          r.alternative_response =
            ⟨some t, pyModelName alternative_model, none⟩)
      ∧ (∀ e, claude_result = .error e → r.claude_length = 0)
      ∧ (∀ t, claude_result = .ok t → r.claude_length = t.length)
      ∧ (∀ e, ollama_result = .error e → r.alternative_length = 0)
      ∧ (∀ t, ollama_result = .ok t → r.alternative_length = t.length)
      ∧ (r.both_succeeded = true ↔
          r.claude_response.error = none ∧
            r.alternative_response.error = none) := by
  unfold compare_llms
  rw [if_neg hp, if_neg ht, if_neg hm]
  refine ⟨_, _, rfl, ?_, ?_, ?_, ?_, ?_, ?_, ?_, ?_, ?_⟩
  · intro e he
    subst he
    rfl
  · intro t ht'
    subst ht'
    rfl
  · intro e he
    subst he
    rfl
  · intro t ht'
    subst ht'
    rfl
  · intro e he
    subst he
    rfl
  · intro t ht'
    subst ht'
    by_cases h0 : t = ""
    · subst h0
      rfl
    · simp [_format_response, pyLenOrZero, h0]
  · intro e he
    subst he
    rfl
  · intro t ht'
    subst ht'
    by_cases h0 : t = ""
    · subst h0
      rfl
    · simp [_format_response, pyLenOrZero, h0]
  · cases claude_result <;> cases ollama_result <;> simp [_format_response]

/-- Witness for C4: a failing sampling path and a succeeding Ollama path —
the failure is recorded as the error, the sibling's text survives. -/
theorem comparator_fork_join_witness :
    ∃ ds r, compare_llms "Hi" none 1 500
        (.error "Claude API error: boom") (.ok "hello") = .ok (ds, r)
      ∧ r.claude_response =
          ⟨none, "claude-sonnet-4-5", some "Claude API error: boom"⟩
      ∧ r.alternative_response = ⟨some "hello", OLLAMA_DEFAULT_MODEL, none⟩
      ∧ r.both_succeeded = false := by
  obtain ⟨ds, r, h0, h1, _, _, h4, _⟩ :=
    comparator_fork_join "Hi" none 1 500 (by decide) (by decide) (by decide)
      (.error "Claude API error: boom") (.ok "hello")
  refine ⟨ds, r, h0, h1 "Claude API error: boom" rfl, h4 "hello" rfl, ?_⟩
  have := h1 "Claude API error: boom" rfl
  cases hb : r.both_succeeded with
  | false => rfl
  | true =>
    have h9 := h0
    rw [show (compare_llms "Hi" none 1 500
      (.error "Claude API error: boom") (.ok "hello")) =
      .ok ([Dispatch.claude "Hi",
        Dispatch.ollama OLLAMA_DEFAULT_MODEL "Hi"],
      { prompt := "Hi",
        claude_response :=
          ⟨none, "claude-sonnet-4-5", some "Claude API error: boom"⟩,
        alternative_response := ⟨some "hello", OLLAMA_DEFAULT_MODEL, none⟩,
        claude_length := 0, alternative_length := 5,
        both_succeeded := false }) from rfl] at h9
    injection h9 with h9
    injection h9 with _ h9
    rw [← h9] at hb
    simp at hb

/-- C8: comparator pre-flight validation. A blank prompt, a temperature
outside [0,2], or a max_tokens outside [1,4000] fails with its message, in
that order, for every pair of path outcomes (no dispatch occurs); when all
three constraints hold, the result is a success whose dispatch list records
both calls. -/
theorem comparator_preflight (prompt : String)
    (alternative_model : Option String) (temperature : Rat)
    (max_tokens : Int) (claude_result ollama_result : Except String String) :
    ((prompt = "" ∨ pyStrip prompt = "") →
      compare_llms prompt alternative_model temperature max_tokens
        claude_result ollama_result = .error "Prompt cannot be empty")
    ∧ (¬(prompt = "" ∨ pyStrip prompt = "") →
      (temperature < 0 ∨ temperature > 2) →
      compare_llms prompt alternative_model temperature max_tokens
        claude_result ollama_result =
        .error "Temperature must be between 0 and 2")
    ∧ (¬(prompt = "" ∨ pyStrip prompt = "") →
      ¬(temperature < 0 ∨ temperature > 2) →
      (max_tokens < 1 ∨ max_tokens > 4000) →
      compare_llms prompt alternative_model temperature max_tokens
        claude_result ollama_result =
        .error "Max tokens must be between 1 and 4000")
    ∧ (¬(prompt = "" ∨ pyStrip prompt = "") →
      ¬(temperature < 0 ∨ temperature > 2) →
      ¬(max_tokens < 1 ∨ max_tokens > 4000) →
      ∃ r, compare_llms prompt alternative_model temperature max_tokens
        claude_result ollama_result =
        .ok ([Dispatch.claude prompt,
          Dispatch.ollama (pyModelName alternative_model) prompt], r)) := by
  refine ⟨?_, ?_, ?_, ?_⟩
  · intro h
    unfold compare_llms
    rw [if_pos h]
  · intro h1 h2
    unfold compare_llms
    rw [if_neg h1, if_pos h2]
  · intro h1 h2 h3
    unfold compare_llms
    rw [if_neg h1, if_neg h2, if_pos h3]
  · intro h1 h2 h3
    unfold compare_llms
    rw [if_neg h1, if_neg h2, if_neg h3]
    exact ⟨_, rfl⟩

/-- Witness for C8: a prompt that is blank after trimming fails validation
with the prompt message for arbitrary path outcomes. -/
theorem comparator_preflight_witness :
    compare_llms "   " none 1 500 (.ok "a") (.ok "b") =
      .error "Prompt cannot be empty" :=
  (comparator_preflight "   " none 1 500 (.ok "a") (.ok "b")).1
    (Or.inr (by decide))

/-- C10: a successful Ollama HTTP status whose valid JSON body lacks the
`response` field makes `_call_ollama` return the empty string, and the
comparator records that path as a success: text is the empty string, error
is null, reported length 0. -/
theorem ollama_missing_response_field (base_url bodyText : String)
    (status : Nat) (hok : statusOk status = true)
    (claude_result : Except String String) :
    _call_ollama base_url (.response status bodyText (.ok ⟨none⟩)) = .ok ""
    ∧ (∀ (prompt : String) (alternative_model : Option String)
        (temperature : Rat) (max_tokens : Int),
      ¬(prompt = "" ∨ pyStrip prompt = "") →
      ¬(temperature < 0 ∨ temperature > 2) →
      ¬(max_tokens < 1 ∨ max_tokens > 4000) →
      ∃ ds r, compare_llms prompt alternative_model temperature max_tokens
          claude_result
          (_call_ollama base_url (.response status bodyText (.ok ⟨none⟩))) =
          .ok (ds, r)
        ∧ r.alternative_response =
            ⟨some "", pyModelName alternative_model, none⟩
        ∧ r.alternative_length = 0) := by
  have hcall : _call_ollama base_url
      (.response status bodyText (.ok ⟨none⟩)) = .ok "" := by
    simp only [_call_ollama]
    rw [if_neg (by simp [hok])]
    rfl
  refine ⟨hcall, ?_⟩
  intro prompt alternative_model temperature max_tokens hp htt hmm'
  obtain ⟨ds, r, h0, _, _, _, h4, _, _, _, h8, _⟩ :=
    comparator_fork_join prompt alternative_model temperature max_tokens
      hp htt hmm' claude_result
      (_call_ollama base_url (.response status bodyText (.ok ⟨none⟩)))
  refine ⟨ds, r, h0, h4 "" hcall, ?_⟩
  rw [h8 "" hcall]
  rfl

/-- Witness for C10: status 200 with a parsed body lacking `response` gives
the empty-string success through the comparator. -/
theorem ollama_missing_response_field_witness :
    _call_ollama OLLAMA_BASE_URL (.response 200 "{}" (.ok ⟨none⟩)) = .ok ""
    ∧ ∃ ds r, compare_llms "Hi" none 1 500 (.ok "fine")
        (_call_ollama OLLAMA_BASE_URL (.response 200 "{}" (.ok ⟨none⟩))) =
        .ok (ds, r)
      ∧ r.alternative_response = ⟨some "", OLLAMA_DEFAULT_MODEL, none⟩
      ∧ r.alternative_length = 0 := by
  obtain ⟨h1, h2⟩ :=
    ollama_missing_response_field OLLAMA_BASE_URL "{}" 200 (by decide)
      (.ok "fine")
  exact ⟨h1, h2 "Hi" none 1 500 (by decide) (by decide) (by decide)⟩

/-- A raw genre record from the provider: each field declared by the
pydantic `TMDBGenre` model is either present with its declared type or
effectively absent (missing, or of a type the model rejects). -/
structure RawGenre where
  id : Option Int
  name : Option String
deriving DecidableEq, Repr

/-- Embedding of `_exclude_incomplete_genres` (fetching_tools.py /
server.py): validate each raw record as a `TMDBGenre`, silently skipping
those that fail — both `id` and `name` are required fields of the model. -/
def _exclude_incomplete_genres (genres_data : List RawGenre) :
    List TMDBGenre :=
  genres_data.filterMap (fun r =>
    match r.id, r.name with
    | some i, some n => some ⟨i, n⟩
    | _, _ => none)

/-- Modelled from the spec: the media pydantic models (`TMDBFilm`,
`TMDBTVShow` in `greenroom.services.tmdb.models`) are not under the sources;
per the spec only the integer id is mandatory and every other field is
optional with a default (missing list → empty list, missing scalar →
null). -/
structure RawMedia where
  id : Option Int
  title : Option String
  date : Option String
  rating : Option Rat
  description : Option String
  genre_ids : Option (List Int)
deriving DecidableEq, Repr

/-- A validated catalog record: mandatory id, defaulted optional fields. -/
structure MediaItem where
  id : Int
  title : Option String
  date : Option String
  rating : Option Rat
  description : Option String
  genre_ids : List Int
deriving DecidableEq, Repr

/-- Embedding of `_filter_incomplete_media` (discovery_tools.py): validate
each raw record against the media model, silently skipping records that
fail; only the id is mandatory. -/
def _filter_incomplete_media (media_data : List RawMedia) :
    List MediaItem :=
  media_data.filterMap (fun r =>
    match r.id with
    | some i =>
      some ⟨i, r.title, r.date, r.rating, r.description, r.genre_ids.getD []⟩
    | none => none)

/-- The pagination fields of the raw provider envelope, as read by
`_format_discovery_response` with `.get(..., 0)`. -/
structure DiscoveryEnvelope where
  total_results : Option Int
  total_pages : Option Int
deriving DecidableEq, Repr

/-- Embedding of the envelope handling of `_format_discovery_response`
(discovery_tools.py): page, total_results and total_pages (the latter two
defaulting to 0 when absent from the raw data), and the validated items. -/
def _format_discovery_response (media_items : List MediaItem)
    (raw_data : DiscoveryEnvelope) (page : Int) :
    Int × Int × Int × List MediaItem :=
  (page, raw_data.total_results.getD 0, raw_data.total_pages.getD 0,
    media_items)

/-- C6 counterexample: a genre record carrying a valid integer id but no
name is dropped by the genre validator — "every record with a valid id is
kept" fails on genre records, whose model also requires the name. -/
theorem malformed_record_counterexample :
    _exclude_incomplete_genres [⟨some 18, none⟩] = [] ∧
    (⟨some 18, none⟩ : RawGenre).id = some 18 := by decide

/-- C6 (amended): a media record lacking the mandatory integer id is
excluded and every media record with a valid id is kept in order with
defaulted optional fields; a genre record is kept, in order, exactly when
both its id and its name are present (the genre model requires both, so a
genre record with a valid id but no name is also dropped); no error is
raised in either case, and total_results/total_pages pass through from the
provider envelope unmodified, defaulting to 0 when absent, regardless of
how many records were dropped. -/
theorem malformed_record_dropping (media_data : List RawMedia)
    (genres_data : List RawGenre) (media_items : List MediaItem)
    (raw_data : DiscoveryEnvelope) (page : Int) :
    _filter_incomplete_media media_data =
      (media_data.filter (fun r => r.id.isSome)).map
        (fun r => ⟨r.id.getD 0, r.title, r.date, r.rating, r.description,
          r.genre_ids.getD []⟩)
    ∧ _exclude_incomplete_genres genres_data =
      (genres_data.filter (fun r => r.id.isSome && r.name.isSome)).map
        (fun r => ⟨r.id.getD 0, r.name.getD ""⟩)
    ∧ (_format_discovery_response media_items raw_data page).2.1 =
        raw_data.total_results.getD 0
    ∧ (_format_discovery_response media_items raw_data page).2.2.1 =
        raw_data.total_pages.getD 0
    ∧ (_format_discovery_response media_items raw_data page).2.2.2 =
        media_items
    ∧ (_format_discovery_response media_items raw_data page).1 = page := by
  refine ⟨?_, ?_, rfl, rfl, rfl, rfl⟩
  · induction media_data with
    | nil => rfl
    | cons r l ih =>
      unfold _filter_incomplete_media at *
      rw [List.filterMap_cons, List.filter_cons]
      cases hr : r.id with
      | none => simp [hr, ih]
      | some i => simp [hr, ih]
  · induction genres_data with
    | nil => rfl
    | cons r l ih =>
      unfold _exclude_incomplete_genres at *
      rw [List.filterMap_cons, List.filter_cons]
      cases hr : r.id with
      | none => simp [hr, ih]
      | some i =>
        cases hn : r.name with
        | none => simp [hr, hn, ih]
        | some n => simp [hr, hn, ih]

/-- The parsed JSON body of a TMDB genre-list response: the `genres` field,
read with `.get("genres", [])`. -/
structure GenresPayload where
  genres : Option (List RawGenre)

/-- Outcome of one TMDB HTTP GET: a transport failure
(`httpx.RequestError`), or a response with its status code, body text, and
the body's JSON parse outcome (`Except.error` carrying the
`json.JSONDecodeError` message). -/
inductive TMDBHttp where
  | transportError (msg : String)
  | response (status : Nat) (bodyText : String)
      (parsed : Except String GenresPayload)

/-- The Python exception class raised for each failure kind. -/
inductive PyExc where
  | valueError
  | runtimeError
  | connectionError
deriving DecidableEq, Repr

/-- The four failure outcomes of `fetch_genres` (fetching_tools.py /
server.py). -/
inductive FetchError where
  | configError (msg : String)
  | providerError (status : Nat) (body : String)
  | connectivityError (msg : String)
  | malformedResponse (msg : String)
deriving DecidableEq, Repr

/-- The Python exception class of each `fetch_genres` failure: `ValueError`
for the missing credential, `RuntimeError` for provider errors and invalid
JSON, `ConnectionError` for transport failures. -/
def FetchError.pyType : FetchError → PyExc
  | .configError _ => .valueError
  | .providerError _ _ => .runtimeError
  | .connectivityError _ => .connectionError
  | .malformedResponse _ => .runtimeError

/-- Python `not api_key`: the credential is missing when the environment
variable is unset or empty. -/
def missing_key (api_key : Option String) : Bool :=
  match api_key with
  | none => true
  | some s => s.isEmpty

/-- The configuration error message of `fetch_genres`. -/
def tmdb_config_error_msg : String :=
  "TMDB_API_KEY not configured. " ++
    "Set TMDB_API_KEY in .env file. " ++
    "Get your key from https://www.themoviedb.org/settings/api"

/-- Embedding of `fetch_genres` (fetching_tools.py / server.py): check the
credential; issue the movie request then the TV request, checking each
status; parse the movie body then the TV body; validate and combine. The
exception handlers map `HTTPStatusError` to the provider error,
`RequestError` to the connectivity error, and `JSONDecodeError` to the
malformed-response error. -/
def fetch_genres (api_key : Option String)
    (movie_http tv_http : TMDBHttp) :
    Except FetchError (PyDict GenreProps) :=
  if missing_key api_key then
    .error (.configError tmdb_config_error_msg)
  else
    match movie_http with
    | .transportError msg =>
      .error (.connectivityError ("Failed to connect to TMDB API: " ++ msg))
    | .response mstatus mbody mparsed =>
      if !(statusOk mstatus) then
        .error (.providerError mstatus mbody)
      else
        match tv_http with
        | .transportError msg =>
          .error (.connectivityError
            ("Failed to connect to TMDB API: " ++ msg))
        | .response tstatus tbody tparsed =>
          if !(statusOk tstatus) then
            .error (.providerError tstatus tbody)
          else
            match mparsed with
            | .error e =>
              .error (.malformedResponse
                ("TMDB API returned invalid JSON: " ++ e))
            | .ok mp =>
              match tparsed with
              | .error e =>
                .error (.malformedResponse
                  ("TMDB API returned invalid JSON: " ++ e))
              | .ok tp =>
                .ok (_combine_genre_lists
                  (_exclude_incomplete_genres (mp.genres.getD []))
                  (_exclude_incomplete_genres (tp.genres.getD [])))

/-- C7: the genre-fetch error taxonomy. A missing credential raises the
configuration error naming TMDB_API_KEY before any request is consulted;
an error HTTP status raises the provider error with the status and body; a
transport failure raises the connectivity error, whose Python exception
class differs from the provider-error and malformed-response class
(RuntimeError) and from the configuration class (ValueError); an
unparseable body raises the malformed-response error; and every outcome of
`fetch_genres` is a success or exactly one of these four failures. -/
theorem fetch_genres_error_taxonomy (api_key : Option String)
    (movie_http tv_http : TMDBHttp) :
    (missing_key api_key = true → ∀ m t : TMDBHttp,
      fetch_genres api_key m t = .error (.configError tmdb_config_error_msg))
    ∧ ("TMDB_API_KEY".data.isPrefixOf tmdb_config_error_msg.data = true)
    ∧ (missing_key api_key = false → ∀ msg,
      movie_http = .transportError msg →
      fetch_genres api_key movie_http tv_http =
        .error (.connectivityError
          ("Failed to connect to TMDB API: " ++ msg)))
    ∧ (missing_key api_key = false → ∀ s b p,
      movie_http = .response s b p → statusOk s = false →
      fetch_genres api_key movie_http tv_http =
        .error (.providerError s b))
    ∧ (missing_key api_key = false → ∀ s b p msg,
      movie_http = .response s b p → statusOk s = true →
      tv_http = .transportError msg →
      fetch_genres api_key movie_http tv_http =
        .error (.connectivityError
          ("Failed to connect to TMDB API: " ++ msg)))
    ∧ (missing_key api_key = false → ∀ s b p s' b' p',
      movie_http = .response s b p → statusOk s = true →
      tv_http = .response s' b' p' → statusOk s' = false →
      fetch_genres api_key movie_http tv_http =
        .error (.providerError s' b'))
    ∧ (missing_key api_key = false → ∀ s b e s' b' p',
      movie_http = .response s b (.error e) → statusOk s = true →
      tv_http = .response s' b' p' → statusOk s' = true →
      fetch_genres api_key movie_http tv_http =
        .error (.malformedResponse
          ("TMDB API returned invalid JSON: " ++ e)))
    ∧ (missing_key api_key = false → ∀ s b mp s' b' e,
      movie_http = .response s b (.ok mp) → statusOk s = true →
      tv_http = .response s' b' (.error e) → statusOk s' = true →
      fetch_genres api_key movie_http tv_http =
        .error (.malformedResponse
          ("TMDB API returned invalid JSON: " ++ e)))
    ∧ (missing_key api_key = false → ∀ s b mp s' b' tp,
      movie_http = .response s b (.ok mp) → statusOk s = true →
      tv_http = .response s' b' (.ok tp) → statusOk s' = true →
      fetch_genres api_key movie_http tv_http =
        .ok (_combine_genre_lists
          (_exclude_incomplete_genres (mp.genres.getD []))
          (_exclude_incomplete_genres (tp.genres.getD []))))
    ∧ (∀ msg s b msg' msg'',
      FetchError.pyType (.connectivityError msg) ≠
        FetchError.pyType (.providerError s b) ∧
      FetchError.pyType (.connectivityError msg) ≠
        FetchError.pyType (.malformedResponse msg') ∧
      FetchError.pyType (.connectivityError msg) ≠
        FetchError.pyType (.configError msg'') ∧
      FetchError.pyType (.configError msg'') ≠
        FetchError.pyType (.providerError s b))
    ∧ ((∃ r, fetch_genres api_key movie_http tv_http = .ok r)
      ∨ (∃ m, fetch_genres api_key movie_http tv_http =
          .error (.configError m))
      ∨ (∃ s b, fetch_genres api_key movie_http tv_http =
          .error (.providerError s b))
      ∨ (∃ m, fetch_genres api_key movie_http tv_http =
          .error (.connectivityError m))
      ∨ (∃ m, fetch_genres api_key movie_http tv_http =
          .error (.malformedResponse m))) := by
  refine ⟨?_, by decide, ?_, ?_, ?_, ?_, ?_, ?_, ?_, ?_, ?_⟩
  · intro hk m t
    unfold fetch_genres
    rw [if_pos hk]
  · intro hk msg hm
    subst hm
    unfold fetch_genres
    rw [if_neg (by simp [hk])]
  · intro hk s b p hm hs
    subst hm
    simp only [fetch_genres]
    rw [if_neg (by simp [hk]), if_pos (by simp [hs])]
  · intro hk s b p msg hm hs htv
    subst hm
    subst htv
    simp only [fetch_genres]
    rw [if_neg (by simp [hk]), if_neg (by simp [hs])]
  · intro hk s b p s' b' p' hm hs htv hs'
    subst hm
    subst htv
    simp only [fetch_genres]
    rw [if_neg (by simp [hk]), if_neg (by simp [hs]),
      if_pos (by simp [hs'])]
  · intro hk s b e s' b' p' hm hs htv hs'
    subst hm
    subst htv
    simp only [fetch_genres]
    rw [if_neg (by simp [hk]), if_neg (by simp [hs]),
      if_neg (by simp [hs'])]
  · intro hk s b mp s' b' e hm hs htv hs'
    subst hm
    subst htv
    simp only [fetch_genres]
    rw [if_neg (by simp [hk]), if_neg (by simp [hs]),
      if_neg (by simp [hs'])]
  · intro hk s b mp s' b' tp hm hs htv hs'
    subst hm
    subst htv
    simp only [fetch_genres]
    rw [if_neg (by simp [hk]), if_neg (by simp [hs]),
      if_neg (by simp [hs'])]
  · intro msg s b msg' msg''
    refine ⟨?_, ?_, ?_, ?_⟩ <;> simp [FetchError.pyType]
  · unfold fetch_genres
    by_cases hk : missing_key api_key = true
    · rw [if_pos hk]
      exact Or.inr (Or.inl ⟨_, rfl⟩)
    · rw [if_neg hk]
      cases movie_http with
      | transportError msg => exact Or.inr (Or.inr (Or.inr (Or.inl ⟨_, rfl⟩)))
      | response s b p =>
        dsimp only
        by_cases hs : (!(statusOk s)) = true
        · rw [if_pos hs]
          exact Or.inr (Or.inr (Or.inl ⟨_, _, rfl⟩))
        · rw [if_neg hs]
          cases tv_http with
          | transportError msg =>
            exact Or.inr (Or.inr (Or.inr (Or.inl ⟨_, rfl⟩)))
          | response s' b' p' =>
            dsimp only
            by_cases hs' : (!(statusOk s')) = true
            · rw [if_pos hs']
              exact Or.inr (Or.inr (Or.inl ⟨_, _, rfl⟩))
            · rw [if_neg hs']
              cases p with
              | error e =>
                exact Or.inr (Or.inr (Or.inr (Or.inr ⟨_, rfl⟩)))
              | ok mp =>
                cases p' with
                | error e =>
                  exact Or.inr (Or.inr (Or.inr (Or.inr ⟨_, rfl⟩)))
                | ok tp => exact Or.inl ⟨_, rfl⟩

/-- Witness for C7: with no credential, the fetch fails with the
configuration error for arbitrary request outcomes. -/
theorem fetch_genres_error_taxonomy_witness :
    fetch_genres none (.transportError "dns") (.transportError "dns") =
      .error (.configError tmdb_config_error_msg) :=
  (fetch_genres_error_taxonomy none (.transportError "dns")
    (.transportError "dns")).1 rfl (.transportError "dns")
    (.transportError "dns")

end Greenroom
